import Mathlib

/-!
Shallow embedding of the lead-outreach pipeline (src/main.py,
src/anthropic_client.py, src/email_sender.py, src/clickup_client.py).

External services (the Anthropic generation call, the SMTP transport and the
ClickUp HTTP request) are modelled as behaviour oracles of type `Except ε α`:
`.ok` is a normal return, `.error` is the call raising an exception.  Python
string truthiness (`if not s`) is modelled by `truthy` on `Option String`
(a dict field is falsy when absent or the empty string).
-/

namespace OutreachAgent

/-- A lead record (the `fields` dict of an Airtable record): the three fields
the pipeline reads, each `none` when the key is absent. -/
structure Lead where
  Name : Option String
  Company : Option String
  Email : Option String
deriving DecidableEq, Repr

/-- Python truthiness of `lead.get(field)`: the key is present and the string
is non-empty. -/
def truthy : Option String → Bool
  | none => false
  | some s => !s.isEmpty

/-- `OutreachAgent._validate_lead_data` (src/main.py lines 74-87): collects the
required fields that are falsy; fails when any is missing, then fails when the
`Email` value has no `@`; otherwise succeeds.  Python `'@' in s` is character
membership, modelled on the character list of the string. -/
def _validate_lead_data (lead : Lead) : Bool :=
  let required_fields : List (Option String) := [lead.Name, lead.Company, lead.Email]
  let missing_fields := required_fields.filter (fun f => !(truthy f))
  if !missing_fields.isEmpty then false
  else if !((lead.Email.getD "").data.contains '@') then false
  else true

/-- The per-lead outcome dict built by `process_lead`: one boolean per stage. -/
structure StageOutcome where
  validation : Bool
  message_generation : Bool
  email_sent : Bool
  task_created : Bool
deriving DecidableEq, Repr

/-- `OutreachAgent._generate_personalized_message` (src/main.py lines 89-108):
reads `lead['Name']` and `lead['Company']` (a missing key raises, which the
`except` clause turns into `None`), then forwards the generation call's result;
any exception from the call is caught and turned into `None`. -/
def _generate_personalized_message {ε : Type} (gen : Except ε String) (lead : Lead) :
    Option String :=
  match lead.Name, lead.Company with
  | some _, some _ =>
    match gen with
    | .ok message => some message
    | .error _ => none
  | _, _ => none

/-- `OutreachAgent._send_outreach_email` (src/main.py lines 110-127): reads
`lead['Company']` and `lead['Email']`, issues the send (its return value is
discarded), returns `true` unless an exception was raised. -/
def _send_outreach_email {ε : Type} (sendEmail : Except ε Bool) (lead : Lead)
    (_message : String) : Bool :=
  match lead.Company, lead.Email with
  | some _, some _ =>
    match sendEmail with
    | .ok _ => true
    | .error _ => false
  | _, _ => false

/-- `OutreachAgent._create_followup_task` (src/main.py lines 129-145): reads
`lead['Name']` and `lead['Company']`, issues the task creation, returns `true`
unless an exception was raised. -/
def _create_followup_task {ε : Type} (createTask : Except ε Unit) (lead : Lead)
    (_message : String) : Bool :=
  match lead.Name, lead.Company with
  | some _, some _ =>
    match createTask with
    | .ok _ => true
    | .error _ => false
  | _, _ => false

/-- `OutreachAgent.process_lead` (src/main.py lines 147-173), parametrised by
the behaviour of the three adapter calls for this lead.  `if not message`
covers both `None` and the empty string (Python falsiness). -/
def process_lead {ε₁ ε₂ ε₃ : Type} (gen : Except ε₁ String) (sendEmail : Except ε₂ Bool)
    (createTask : Except ε₃ Unit) (lead : Lead) : StageOutcome :=
  let results : StageOutcome := ⟨false, false, false, false⟩
  if !(_validate_lead_data lead) then results
  else
    let results := { results with validation := true }
    match _generate_personalized_message gen lead with
    | none => results
    | some message =>
      if message.isEmpty then results
      else
        let results := { results with message_generation := true }
        let results :=
          if _send_outreach_email sendEmail lead message then
            { results with email_sent := true }
          else results
        let results :=
          if _create_followup_task createTask lead message then
            { results with task_created := true }
          else results
        results

/-- The campaign counters dict of `run_outreach_campaign` (src/main.py
lines 180-187). -/
structure CampaignStats where
  total_leads : Nat
  validated_leads : Nat
  messages_generated : Nat
  emails_sent : Nat
  tasks_created : Nat
  failed_leads : Nat
deriving DecidableEq, Repr

/-- One Airtable record together with the behaviour of the three external
calls for that lead during this campaign run. -/
structure LeadRun where
  fields : Lead
  gen : Except String String
  sendEmail : Except String Bool
  createTask : Except String Unit

/-- The workflow applied to one record: `process_lead(record['fields'])`. -/
def processRun (record : LeadRun) : StageOutcome :=
  process_lead record.gen record.sendEmail record.createTask record.fields

/-- `any(results.values())` over the four stage booleans (dict insertion
order: validation, message_generation, email_sent, task_created). -/
def anyStage (results : StageOutcome) : Bool :=
  results.validation || results.message_generation || results.email_sent || results.task_created

/-- The per-lead counter updates of the campaign loop (src/main.py
lines 198-207). -/
def updateStats (stats : CampaignStats) (results : StageOutcome) : CampaignStats :=
  let stats :=
    if results.validation then { stats with validated_leads := stats.validated_leads + 1 }
    else stats
  let stats :=
    if results.message_generation then
      { stats with messages_generated := stats.messages_generated + 1 }
    else stats
  let stats :=
    if results.email_sent then { stats with emails_sent := stats.emails_sent + 1 } else stats
  let stats :=
    if results.task_created then { stats with tasks_created := stats.tasks_created + 1 }
    else stats
  if !(anyStage results) then { stats with failed_leads := stats.failed_leads + 1 } else stats

/-- `OutreachAgent.run_outreach_campaign` (src/main.py lines 175-217) after a
successful fetch of `leads`: counters start at zero, `total_leads` is set to
the batch length, then each record flows through `process_lead` and the
counter updates, in batch order. -/
def run_outreach_campaign (leads : List LeadRun) : CampaignStats :=
  let campaign_stats : CampaignStats :=
    { total_leads := leads.length, validated_leads := 0, messages_generated := 0,
      emails_sent := 0, tasks_created := 0, failed_leads := 0 }
  leads.foldl (fun stats record => updateStats stats (processRun record)) campaign_stats

/-- `performance_metrics` accumulator of the agent (src/main.py lines 46-51),
durations as rationals. -/
structure PerformanceMetrics where
  total_processing_time : ℚ
  message_generation_time : ℚ
  email_sending_time : ℚ
  task_creation_time : ℚ
deriving DecidableEq, Repr

/-- The dict returned by `get_performance_metrics`. -/
structure DetailedMetrics where
  total_processing_time : ℚ
  message_generation_time : ℚ
  email_sending_time : ℚ
  task_creation_time : ℚ
  average_message_time : ℚ
  average_email_time : ℚ
  average_task_time : ℚ
deriving DecidableEq, Repr

/-- `OutreachAgent.get_performance_metrics` (src/main.py lines 219-229): each
average divides the accumulated stage time by `max(count, 1)`.  (The Python
`campaign_stats.get(key, 1)` default never fires on stats produced by
`run_outreach_campaign`, whose dict always carries all six keys.) -/
def get_performance_metrics (pm : PerformanceMetrics) (campaign_stats : CampaignStats) :
    DetailedMetrics :=
  { total_processing_time := pm.total_processing_time
    message_generation_time := pm.message_generation_time
    email_sending_time := pm.email_sending_time
    task_creation_time := pm.task_creation_time
    average_message_time :=
      pm.message_generation_time / ((max campaign_stats.messages_generated 1 : ℕ) : ℚ)
    average_email_time :=
      pm.email_sending_time / ((max campaign_stats.emails_sent 1 : ℕ) : ℚ)
    average_task_time :=
      pm.task_creation_time / ((max campaign_stats.tasks_created 1 : ℕ) : ℚ) }

/-- All-false outcome (the initial `results` dict). -/
def stageAllFalse : StageOutcome := ⟨false, false, false, false⟩

end OutreachAgent

namespace AnthropicClient

/-- The `lead` dict passed to `generate_outreach_message`; `none` marks an
absent key. -/
structure GenLead where
  name : Option String
  company : Option String
deriving DecidableEq, Repr

/-- The `client_info` dict. -/
structure ClientInfo where
  name : Option String
deriving DecidableEq, Repr

/-- The behaviour of one `self.client.messages.create` call: a returned
message, a `RateLimitError`, another `APIError`, or any other exception. -/
inductive GenAttempt where
  | ok (message : String)
  | rateLimitError
  | apiError
  | unexpectedError
deriving DecidableEq, Repr

/-- The ways `generate_outreach_message` itself can raise. -/
inductive GenFailure where
  | valueError (msg : String)
  | rateLimitError
  | apiError
  | unexpectedError
deriving DecidableEq, Repr

/-- Observable behaviour of one `generate_outreach_message` call: how many
service calls were made, the `time.sleep` durations performed (in seconds, in
order), and the returned message or raised exception. -/
structure GenRun where
  calls : Nat
  delays : List Nat
  outcome : Except GenFailure String
deriving Repr

/-- The exception (or return) produced by a terminal attempt result. -/
def attemptOutcome : GenAttempt → Except GenFailure String
  | .ok message => .ok message
  | .rateLimitError => .error .rateLimitError
  | .apiError => .error .apiError
  | .unexpectedError => .error .unexpectedError

/-- The `for attempt in range(max_retries + 1)` loop of
`generate_outreach_message` (src/anthropic_client.py lines 56-85), from
iteration `attempt` on, the service behaviour per attempt index given by
`service`.  On `RateLimitError` with `attempt < max_retries` it sleeps
`(2 ** attempt) * 1` seconds and continues; otherwise the exception
propagates; `APIError` and any other exception propagate at once. -/
def genAttemptLoop (service : Nat → GenAttempt) (max_retries attempt : Nat) : GenRun :=
  match service attempt with
  | .ok message => { calls := 1, delays := [], outcome := .ok message }
  | .rateLimitError =>
    if h : attempt < max_retries then
      let rest := genAttemptLoop service max_retries (attempt + 1)
      { calls := rest.calls + 1, delays := 2 ^ attempt * 1 :: rest.delays,
        outcome := rest.outcome }
    else { calls := 1, delays := [], outcome := .error .rateLimitError }
  | .apiError => { calls := 1, delays := [], outcome := .error .apiError }
  | .unexpectedError => { calls := 1, delays := [], outcome := .error .unexpectedError }
termination_by max_retries - attempt

/-- `AnthropicClient.generate_outreach_message` (src/anthropic_client.py
lines 30-85): the two `ValueError` key checks run before any service call,
then the attempt loop starts at attempt 0. -/
def generate_outreach_message (service : Nat → GenAttempt) (lead : GenLead)
    (client_info : ClientInfo) (max_retries : Nat) : GenRun :=
  if !(lead.name.isSome && lead.company.isSome) then
    { calls := 0, delays := [],
      outcome := .error (.valueError "Lead must contain name and company fields") }
  else if !client_info.name.isSome then
    { calls := 0, delays := [],
      outcome := .error (.valueError "Client info must contain name field") }
  else genAttemptLoop service max_retries 0

end AnthropicClient

namespace EmailSender

/-- The exceptions `send_email` can raise: its own `ValueError` input checks,
an `SMTPException` from the transport, or any other exception. -/
inductive EmailFailure where
  | valueError (msg : String)
  | smtpError (msg : String)
  | unexpectedError (msg : String)
deriving DecidableEq, Repr

/-- `str(e)` of an `EmailFailure`. -/
def EmailFailure.str : EmailFailure → String
  | .valueError msg => msg
  | .smtpError msg => msg
  | .unexpectedError msg => msg

/-- A network effect of `send_email`: entering the `with smtplib.SMTP(...)`
block, i.e. opening the transport connection. -/
inductive EmailEffect where
  | connect
deriving DecidableEq, Repr

/-- `EmailSender.send_email` (src/email_sender.py lines 31-77): the two input
checks raise `ValueError` before the `with smtplib.SMTP(...)` block; only
past them is a connection opened, after which the transport behaviour decides
between `return True` and a propagated exception.  Returns the list of
network effects performed together with the return value or raised
exception. -/
def send_email (transport : Except EmailFailure Unit) (to_email subject body : String)
    (_from_email : Option String) : List EmailEffect × Except EmailFailure Bool :=
  if to_email = "" || subject = "" || body = "" then
    ([], .error (.valueError "to_email, subject, and body are required"))
  else if !(to_email.data.contains '@') then
    ([], .error (.valueError "Invalid recipient email address"))
  else
    match transport with
    | .ok _ => ([.connect], .ok true)
    | .error e => ([.connect], .error e)

/-- The report dict built by `send_bulk_emails`. -/
structure BulkReport where
  total : Nat
  successful : Nat
  failed : Nat
  errors : List String
deriving DecidableEq, Repr

/-- One iteration of the `send_bulk_emails` loop (src/email_sender.py
lines 101-111) for recipient `email`, with the transport behaviour of this
iteration's `send_email` call given by `transport`: a truthy return counts as
successful, a falsy return appends a `Failed to send` note, an exception
appends an `Error sending` note with `str(e)`. -/
def bulkStep (transport : Except EmailFailure Unit) (subject body : String)
    (from_email : Option String) (results : BulkReport) (email : String) : BulkReport :=
  match (send_email transport email subject body from_email).snd with
  | .ok true => { results with successful := results.successful + 1 }
  | .ok false =>
    { results with
        failed := results.failed + 1
        errors := results.errors ++ ["Failed to send to " ++ email] }
  | .error e =>
    { results with
        failed := results.failed + 1
        errors := results.errors ++ ["Error sending to " ++ email ++ ": " ++ e.str] }

/-- The `for email in email_list` loop of `send_bulk_emails`, recipient `i`
onwards; `transports i` is the transport behaviour of the i-th `send_email`
call. -/
def bulkGo (transports : Nat → Except EmailFailure Unit) (subject body : String)
    (from_email : Option String) : List String → Nat → BulkReport → BulkReport
  | [], _, results => results
  | email :: rest, i, results =>
    bulkGo transports subject body from_email rest (i + 1)
      (bulkStep (transports i) subject body from_email results email)

/-- `EmailSender.send_bulk_emails` (src/email_sender.py lines 79-114):
`total` is fixed to `len(email_list)` up front, the counters start at zero,
and the loop runs over the recipients in list order. -/
def send_bulk_emails (transports : Nat → Except EmailFailure Unit)
    (email_list : List String) (subject body : String) (from_email : Option String) :
    BulkReport :=
  bulkGo transports subject body from_email email_list 0
    { total := email_list.length, successful := 0, failed := 0, errors := [] }

/-- The error note (if any) that recipient `email` with transport behaviour
`transport` contributes to the bulk report. -/
def bulkFailureNote (transport : Except EmailFailure Unit) (subject body : String)
    (from_email : Option String) (email : String) : Option String :=
  match (send_email transport email subject body from_email).snd with
  | .ok true => none
  | .ok false => some ("Failed to send to " ++ email)
  | .error e => some ("Error sending to " ++ email ++ ": " ++ e.str)

/-- The error notes of the recipients from index `i` on, in iteration
order. -/
def bulkErrorList (transports : Nat → Except EmailFailure Unit) (subject body : String)
    (from_email : Option String) : List String → Nat → List String
  | [], _ => []
  | email :: rest, i =>
    match bulkFailureNote (transports i) subject body from_email email with
    | some note => note :: bulkErrorList transports subject body from_email rest (i + 1)
    | none => bulkErrorList transports subject body from_email rest (i + 1)

end EmailSender

namespace ClickUpClient

/-- The JSON `data` payload assembled by `create_task` before the HTTP
request. -/
structure TaskRequest where
  name : String
  description : Option String
  due_date : Option String
  priority : Option Int
deriving DecidableEq, Repr

/-- `ClickUpClient.create_task` (src/clickup_client.py lines 30-66) up to the
outgoing request: raises `ValueError` when `list_id` or `name` is falsy,
otherwise builds the payload, attaching each optional field only when truthy —
for `priority`, only when it is truthy AND `1 <= priority <= 4`. -/
def create_task (list_id name : String) (description due_date : Option String)
    (priority : Option Int) : Except String TaskRequest :=
  if list_id = "" || name = "" then .error "list_id and name are required"
  else
    .ok
      { name := name
        description :=
          match description with
          | some d => if d = "" then none else some d
          | none => none
        due_date :=
          match due_date with
          | some d => if d = "" then none else some d
          | none => none
        priority :=
          match priority with
          | some p => if p ≠ 0 ∧ 1 ≤ p ∧ p ≤ 4 then some p else none
          | none => none }

end ClickUpClient

namespace OutreachAgent

/-! ### Helper lemmas about the per-lead workflow -/

theorem process_lead_shape {ε₁ ε₂ ε₃ : Type} (gen : Except ε₁ String)
    (sendEmail : Except ε₂ Bool) (createTask : Except ε₃ Unit) (lead : Lead) :
    process_lead gen sendEmail createTask lead =
      if _validate_lead_data lead then
        match _generate_personalized_message gen lead with
        | none => ⟨true, false, false, false⟩
        | some message =>
          if message.isEmpty then ⟨true, false, false, false⟩
          else ⟨true, true, _send_outreach_email sendEmail lead message,
                _create_followup_task createTask lead message⟩
      else ⟨false, false, false, false⟩ := by
  unfold process_lead
  by_cases hv : _validate_lead_data lead
  · simp only [hv, Bool.not_true, Bool.false_eq_true, if_false, if_true]
    cases hg : _generate_personalized_message gen lead with
    | none => rfl
    | some message =>
      by_cases hm : message.isEmpty
      · simp [hm]
      · simp only [hm, Bool.false_eq_true, if_false]
        cases hse : _send_outreach_email sendEmail lead message <;>
          cases hct : _create_followup_task createTask lead message <;> simp
  · simp [hv]

theorem process_lead_validation {ε₁ ε₂ ε₃ : Type} (gen : Except ε₁ String)
    (sendEmail : Except ε₂ Bool) (createTask : Except ε₃ Unit) (lead : Lead) :
    (process_lead gen sendEmail createTask lead).validation = _validate_lead_data lead := by
  rw [process_lead_shape]
  by_cases hv : _validate_lead_data lead
  · simp only [hv, if_true]
    cases hg : _generate_personalized_message gen lead with
    | none => rfl
    | some message => by_cases hm : message.isEmpty <;> simp [hm]
  · simp [hv]

theorem anyStage_process_lead {ε₁ ε₂ ε₃ : Type} (gen : Except ε₁ String)
    (sendEmail : Except ε₂ Bool) (createTask : Except ε₃ Unit) (lead : Lead) :
    anyStage (process_lead gen sendEmail createTask lead) = _validate_lead_data lead := by
  rw [process_lead_shape]
  by_cases hv : _validate_lead_data lead
  · simp only [hv, if_true]
    cases hg : _generate_personalized_message gen lead with
    | none => rfl
    | some message => by_cases hm : message.isEmpty <;> simp [hm, anyStage]
  · simp [hv, anyStage]

theorem not_anyStage_iff (o : StageOutcome) :
    (!(anyStage o)) = decide (o = stageAllFalse) := by
  rcases o with ⟨v, m, e, t⟩
  cases v <;> cases m <;> cases e <;> cases t <;> rfl

theorem process_lead_eq_allFalse_iff {ε₁ ε₂ ε₃ : Type} (gen : Except ε₁ String)
    (sendEmail : Except ε₂ Bool) (createTask : Except ε₃ Unit) (lead : Lead) :
    process_lead gen sendEmail createTask lead = stageAllFalse ↔
      _validate_lead_data lead = false := by
  constructor
  · intro h
    have := process_lead_validation gen sendEmail createTask lead
    rw [h] at this
    exact this.symm
  · intro h
    rw [process_lead_shape, h]
    rfl

theorem validate_iff (lead : Lead) :
    _validate_lead_data lead = true ↔
      truthy lead.Name = true ∧ truthy lead.Company = true ∧ truthy lead.Email = true ∧
        (lead.Email.getD "").data.contains '@' = true := by
  unfold _validate_lead_data
  cases hN : truthy lead.Name <;> cases hC : truthy lead.Company <;>
    cases hE : truthy lead.Email <;>
      simp [List.filter, hN, hC, hE]

theorem gen_error_none {ε : Type} (e : ε) (lead : Lead) :
    _generate_personalized_message (Except.error e) lead = none := by
  unfold _generate_personalized_message
  cases lead.Name <;> cases lead.Company <;> rfl

theorem send_error_false {ε : Type} (e : ε) (lead : Lead) (m : String) :
    _send_outreach_email (Except.error e) lead m = false := by
  unfold _send_outreach_email
  cases lead.Company <;> cases lead.Email <;> rfl

theorem task_error_false {ε : Type} (e : ε) (lead : Lead) (m : String) :
    _create_followup_task (Except.error e) lead m = false := by
  unfold _create_followup_task
  cases lead.Name <;> cases lead.Company <;> rfl

theorem anyStage_processRun (r : LeadRun) :
    anyStage (processRun r) = (processRun r).validation := by
  unfold processRun
  rw [anyStage_process_lead, process_lead_validation]

/-- When validation passed, the `Name` and `Company` keys are present. -/
theorem validate_name_company (lead : Lead) (h : _validate_lead_data lead = true) :
    (∃ n, lead.Name = some n) ∧ ∃ c, lead.Company = some c := by
  obtain ⟨hN, hC, -, -⟩ := (validate_iff lead).mp h
  refine ⟨?_, ?_⟩
  · cases hn : lead.Name with
    | none => rw [hn] at hN; exact absurd hN (by simp [truthy])
    | some n => exact ⟨n, rfl⟩
  · cases hc : lead.Company with
    | none => rw [hc] at hC; exact absurd hC (by simp [truthy])
    | some c => exact ⟨c, rfl⟩

end OutreachAgent

namespace OutreachAgentLemmas
open OutreachAgent

theorem updateStats_total (stats : CampaignStats) (results : StageOutcome) :
    (updateStats stats results).total_leads = stats.total_leads := by
  rcases results with ⟨v, m, e, t⟩
  cases v <;> cases m <;> cases e <;> cases t <;> simp [updateStats, anyStage]

theorem updateStats_failed (stats : CampaignStats) (results : StageOutcome) :
    (updateStats stats results).failed_leads =
      stats.failed_leads + (if anyStage results then 0 else 1) := by
  rcases results with ⟨v, m, e, t⟩
  cases v <;> cases m <;> cases e <;> cases t <;> simp [updateStats, anyStage]

theorem updateStats_validated (stats : CampaignStats) (results : StageOutcome) :
    (updateStats stats results).validated_leads =
      stats.validated_leads + (if results.validation then 1 else 0) := by
  rcases results with ⟨v, m, e, t⟩
  cases v <;> cases m <;> cases e <;> cases t <;> simp [updateStats, anyStage]

theorem campaign_foldl_total (leads : List LeadRun) (stats : CampaignStats) :
    (leads.foldl (fun s r => updateStats s (processRun r)) stats).total_leads =
      stats.total_leads := by
  induction leads generalizing stats with
  | nil => rfl
  | cons r rest ih => rw [List.foldl_cons, ih, updateStats_total]

theorem campaign_foldl_failed (leads : List LeadRun) (stats : CampaignStats) :
    (leads.foldl (fun s r => updateStats s (processRun r)) stats).failed_leads =
      stats.failed_leads + leads.countP (fun r => !(anyStage (processRun r))) := by
  induction leads generalizing stats with
  | nil => simp
  | cons r rest ih =>
    rw [List.foldl_cons, ih, List.countP_cons, updateStats_failed]
    cases h : anyStage (processRun r) <;> simp [h] <;> omega

theorem campaign_foldl_validated (leads : List LeadRun) (stats : CampaignStats) :
    (leads.foldl (fun s r => updateStats s (processRun r)) stats).validated_leads =
      stats.validated_leads + leads.countP (fun r => (processRun r).validation) := by
  induction leads generalizing stats with
  | nil => simp
  | cons r rest ih =>
    rw [List.foldl_cons, ih, List.countP_cons, updateStats_validated]
    cases h : (processRun r).validation <;> simp [h] <;> omega

theorem countP_add_countP_not {α : Type} (p : α → Bool) (l : List α) :
    l.countP p + l.countP (fun a => !(p a)) = l.length := by
  induction l with
  | nil => rfl
  | cons a l ih => cases h : p a <;> simp [List.countP_cons, h] <;> omega

end OutreachAgentLemmas

namespace AnthropicClient

/-! ### Helper lemmas about the retry loop -/

theorem genAttemptLoop_terminal (service : Nat → GenAttempt) (max_retries attempt : Nat)
    (hterm : service attempt ≠ .rateLimitError ∨ attempt = max_retries) :
    genAttemptLoop service max_retries attempt =
      { calls := 1, delays := [], outcome := attemptOutcome (service attempt) } := by
  rw [genAttemptLoop.eq_def]
  cases hs : service attempt with
  | ok m => rfl
  | rateLimitError =>
    have hmr : attempt = max_retries := by
      rcases hterm with h | h
      · exact absurd hs h
      · exact h
    rw [dif_neg (by omega)]
    rfl
  | apiError => rfl
  | unexpectedError => rfl

theorem genAttemptLoop_retry (service : Nat → GenAttempt) (max_retries attempt : Nat)
    (hrl : service attempt = .rateLimitError) (hlt : attempt < max_retries) :
    genAttemptLoop service max_retries attempt =
      { calls := (genAttemptLoop service max_retries (attempt + 1)).calls + 1,
        delays :=
          2 ^ attempt * 1 :: (genAttemptLoop service max_retries (attempt + 1)).delays,
        outcome := (genAttemptLoop service max_retries (attempt + 1)).outcome } := by
  rw [genAttemptLoop.eq_def, hrl, dif_pos hlt]

theorem genAttemptLoop_spec (service : Nat → GenAttempt) (max_retries : Nat) :
    ∀ (d attempt k : Nat), k - attempt ≤ d → attempt ≤ k → k ≤ max_retries →
      (∀ i, attempt ≤ i → i < k → service i = .rateLimitError) →
      (service k ≠ .rateLimitError ∨ k = max_retries) →
      genAttemptLoop service max_retries attempt =
        { calls := k - attempt + 1,
          delays := (List.range' attempt (k - attempt)).map (fun i => 2 ^ i * 1),
          outcome := attemptOutcome (service k) } := by
  intro d
  induction d with
  | zero =>
    intro attempt k hd hak hkm hpre hterm
    have hak' : attempt = k := by omega
    subst hak'
    rw [genAttemptLoop_terminal service max_retries attempt hterm]
    simp
  | succ d ih =>
    intro attempt k hd hak hkm hpre hterm
    by_cases heq : attempt = k
    · subst heq
      rw [genAttemptLoop_terminal service max_retries attempt hterm]
      simp
    · have halt : attempt < k := by omega
      have hrl : service attempt = .rateLimitError := hpre attempt le_rfl halt
      rw [genAttemptLoop_retry service max_retries attempt hrl (by omega)]
      rw [ih (attempt + 1) k (by omega) (by omega) hkm
        (fun i h1 h2 => hpre i (by omega) h2) hterm]
      have hn : k - attempt = (k - (attempt + 1)) + 1 := by omega
      rw [hn, List.range'_succ, List.map_cons]

theorem genAttemptLoop_calls_le (service : Nat → GenAttempt) :
    ∀ (d max_retries attempt : Nat), max_retries - attempt ≤ d →
      (genAttemptLoop service max_retries attempt).calls ≤ max_retries - attempt + 1 := by
  intro d
  induction d with
  | zero =>
    intro max_retries attempt hd
    rw [genAttemptLoop.eq_def]
    cases hs : service attempt with
    | ok m => simp
    | rateLimitError =>
      rw [dif_neg (by omega)]
      simp
    | apiError => simp
    | unexpectedError => simp
  | succ d ih =>
    intro max_retries attempt hd
    rw [genAttemptLoop.eq_def]
    cases hs : service attempt with
    | ok m => simp
    | rateLimitError =>
      by_cases hlt : attempt < max_retries
      · rw [dif_pos hlt]
        have := ih max_retries (attempt + 1) (by omega)
        simp only []
        omega
      · rw [dif_neg hlt]
        simp
    | apiError => simp
    | unexpectedError => simp

/-- With both key checks passing, `generate_outreach_message` is the attempt
loop started at attempt 0. -/
theorem generate_outreach_message_eq_loop (service : Nat → GenAttempt) (lead : GenLead)
    (client_info : ClientInfo) (max_retries : Nat)
    (hn : lead.name.isSome = true) (hc : lead.company.isSome = true)
    (hci : client_info.name.isSome = true) :
    generate_outreach_message service lead client_info max_retries =
      genAttemptLoop service max_retries 0 := by
  unfold generate_outreach_message
  rw [hn, hc, hci]
  rfl

end AnthropicClient

namespace EmailSender

/-! ### Helper lemmas about the bulk-send loop -/

theorem bulkStep_eq (transport : Except EmailFailure Unit) (subject body : String)
    (from_email : Option String) (acc : BulkReport) (email : String) :
    bulkStep transport subject body from_email acc email =
      match bulkFailureNote transport subject body from_email email with
      | none => { acc with successful := acc.successful + 1 }
      | some note =>
        { acc with failed := acc.failed + 1, errors := acc.errors ++ [note] } := by
  unfold bulkStep bulkFailureNote
  cases h : (send_email transport email subject body from_email).snd with
  | ok b => cases b <;> rfl
  | error e => rfl

theorem bulkGo_spec (transports : Nat → Except EmailFailure Unit) (subject body : String)
    (from_email : Option String) :
    ∀ (emails : List String) (i : Nat) (acc : BulkReport),
      (bulkGo transports subject body from_email emails i acc).total = acc.total ∧
      (bulkGo transports subject body from_email emails i acc).errors =
        acc.errors ++ bulkErrorList transports subject body from_email emails i ∧
      (bulkGo transports subject body from_email emails i acc).failed =
        acc.failed + (bulkErrorList transports subject body from_email emails i).length ∧
      (bulkGo transports subject body from_email emails i acc).successful +
          (bulkErrorList transports subject body from_email emails i).length =
        acc.successful + emails.length := by
  intro emails
  induction emails with
  | nil =>
    intro i acc
    simp [bulkGo, bulkErrorList]
  | cons email rest ih =>
    intro i acc
    simp only [bulkGo, bulkErrorList, bulkStep_eq]
    cases hnote : bulkFailureNote (transports i) subject body from_email email with
    | none =>
      obtain ⟨h1, h2, h3, h4⟩ :=
        ih (i + 1) { acc with successful := acc.successful + 1 }
      dsimp only
      dsimp only at h1 h2 h3 h4
      refine ⟨h1, by simpa using h2, by simpa using h3, ?_⟩
      simp only [List.length_cons]
      omega
    | some note =>
      obtain ⟨h1, h2, h3, h4⟩ :=
        ih (i + 1) { acc with failed := acc.failed + 1, errors := acc.errors ++ [note] }
      dsimp only
      dsimp only at h1 h2 h3 h4
      refine ⟨h1, ?_, ?_, ?_⟩
      · rw [h2]
        simp
      · rw [h3]
        simp only [List.length_cons]
        omega
      · simp only [List.length_cons]
        omega

end EmailSender

namespace Claims
open OutreachAgent OutreachAgentLemmas

/-- C1: for every lead and adapter behaviour, the StageOutcome returned by
`process_lead` has one of exactly the shapes `(false, false, false, false)`,
`(true, false, false, false)` or `(true, true, e, t)`; `validation = false`
forces the other three outcomes false; `message_generation = false` forces
`email_sent = false` and `task_created = false`; and once message generation
succeeds both later stages are attempted, so `(true, true, false, true)` is
reached when the email adapter fails and the task adapter succeeds. -/
theorem c1_stage_outcome_shapes :
    (∀ {ε₁ ε₂ ε₃ : Type} (gen : Except ε₁ String) (sendEmail : Except ε₂ Bool)
        (createTask : Except ε₃ Unit) (lead : Lead),
      (process_lead gen sendEmail createTask lead = ⟨false, false, false, false⟩ ∨
        process_lead gen sendEmail createTask lead = ⟨true, false, false, false⟩ ∨
        ∃ e t, process_lead gen sendEmail createTask lead = ⟨true, true, e, t⟩) ∧
      ((process_lead gen sendEmail createTask lead).validation = false →
        process_lead gen sendEmail createTask lead = ⟨false, false, false, false⟩) ∧
      ((process_lead gen sendEmail createTask lead).message_generation = false →
        (process_lead gen sendEmail createTask lead).email_sent = false ∧
          (process_lead gen sendEmail createTask lead).task_created = false)) ∧
    process_lead (Except.ok "Hello John" : Except String String)
        (Except.error "SMTP connection refused" : Except String Bool)
        (Except.ok () : Except String Unit)
        ⟨some "John", some "Acme", some "john@acme.com"⟩ = ⟨true, true, false, true⟩ := by
  constructor
  · intro ε₁ ε₂ ε₃ gen sendEmail createTask lead
    rw [process_lead_shape]
    by_cases hv : _validate_lead_data lead
    · rw [if_pos hv]
      cases hg : _generate_personalized_message gen lead with
      | none => simp
      | some message => by_cases hm : message.isEmpty <;> simp [hm]
    · simp [hv]
  · rfl

/-- C1 witness: the `validation = false → all-false` hypothesis discharged on
a concrete lead with a malformed email. -/
theorem c1_stage_outcome_shapes_witness :
    process_lead (Except.ok "msg" : Except String String)
        (Except.ok true : Except String Bool) (Except.ok () : Except String Unit)
        ⟨some "John", some "Acme", some "invalid"⟩ = ⟨false, false, false, false⟩ :=
  (c1_stage_outcome_shapes.1 (Except.ok "msg") (Except.ok true) (Except.ok ())
    ⟨some "John", some "Acme", some "invalid"⟩).2.1 (by decide)

/-- C2: during `run_outreach_campaign` the `failed_leads` counter is
incremented for a lead exactly when none of its four stage outcomes is true;
after the run `failed_leads` equals the number of leads whose StageOutcome is
all-false, and `validated_leads + failed_leads = total_leads`. -/
theorem c2_failed_leads_invariant (leads : List LeadRun) :
    (∀ (stats : CampaignStats) (results : StageOutcome),
      (updateStats stats results).failed_leads =
        stats.failed_leads +
          (if results.validation = false ∧ results.message_generation = false ∧
              results.email_sent = false ∧ results.task_created = false then 1 else 0)) ∧
    (run_outreach_campaign leads).failed_leads =
      (leads.filter (fun r => decide (processRun r = stageAllFalse))).length ∧
    (run_outreach_campaign leads).validated_leads + (run_outreach_campaign leads).failed_leads =
      (run_outreach_campaign leads).total_leads ∧
    (run_outreach_campaign leads).total_leads = leads.length := by
  have hfail : (run_outreach_campaign leads).failed_leads =
      leads.countP (fun r => !(anyStage (processRun r))) := by
    unfold run_outreach_campaign
    rw [campaign_foldl_failed]
    simp
  refine ⟨?_, ?_, ?_, ?_⟩
  · intro stats results
    rw [updateStats_failed]
    rcases results with ⟨v, m, e, t⟩
    cases v <;> cases m <;> cases e <;> cases t <;> simp [anyStage]
  · rw [hfail, ← List.countP_eq_length_filter]
    simp only [not_anyStage_iff]
  · have hval : (run_outreach_campaign leads).validated_leads =
        leads.countP (fun r => (processRun r).validation) := by
      unfold run_outreach_campaign
      rw [campaign_foldl_validated]
      simp
    have htot : (run_outreach_campaign leads).total_leads = leads.length := by
      unfold run_outreach_campaign
      rw [campaign_foldl_total]
    rw [hval, hfail, htot]
    have : (fun r => !(anyStage (processRun r))) =
        fun r => !((processRun r).validation) := by
      funext r
      rw [anyStage_processRun]
    rw [this]
    exact countP_add_countP_not (fun r => (processRun r).validation) leads
  · unfold run_outreach_campaign
    rw [campaign_foldl_total]

/-- C2 witness: the per-lead increment rule applied to a concrete all-false
outcome (the `if` condition is the discharged hypothesis side). -/
theorem c2_failed_leads_invariant_witness :
    (updateStats ⟨2, 0, 0, 0, 0, 0⟩ ⟨false, false, false, false⟩).failed_leads = 0 + 1 := by
  have h := ((c2_failed_leads_invariant []).1 ⟨2, 0, 0, 0, 0, 0⟩ ⟨false, false, false, false⟩)
  simpa using h

/-- C3: for every lead and every adapter behaviour — including any adapter
raising any exception of any type — `process_lead` returns a `StageOutcome`
(it is a total function) and converts an adapter failure into `false` for the
corresponding stage(s): a failed generation forces the last three outcomes
false, a failed email send forces `email_sent = false`, a failed task creation
forces `task_created = false`. -/
theorem c3_adapter_failures_absorbed {ε₁ ε₂ ε₃ : Type} (gen : Except ε₁ String)
    (sendEmail : Except ε₂ Bool) (createTask : Except ε₃ Unit) (lead : Lead) :
    (∀ e₁ : ε₁, gen = Except.error e₁ →
      (process_lead gen sendEmail createTask lead).message_generation = false ∧
        (process_lead gen sendEmail createTask lead).email_sent = false ∧
        (process_lead gen sendEmail createTask lead).task_created = false) ∧
    (∀ e₂ : ε₂, sendEmail = Except.error e₂ →
      (process_lead gen sendEmail createTask lead).email_sent = false) ∧
    (∀ e₃ : ε₃, createTask = Except.error e₃ →
      (process_lead gen sendEmail createTask lead).task_created = false) := by
  refine ⟨?_, ?_, ?_⟩
  · intro e₁ he
    subst he
    rw [process_lead_shape]
    by_cases hv : _validate_lead_data lead
    · rw [if_pos hv, gen_error_none]
      exact ⟨rfl, rfl, rfl⟩
    · simp [hv]
  · intro e₂ he
    subst he
    rw [process_lead_shape]
    by_cases hv : _validate_lead_data lead
    · rw [if_pos hv]
      cases hg : _generate_personalized_message gen lead with
      | none => rfl
      | some message =>
        by_cases hm : message.isEmpty
        · simp [hm]
        · simp [hm, send_error_false]
    · simp [hv]
  · intro e₃ he
    subst he
    rw [process_lead_shape]
    by_cases hv : _validate_lead_data lead
    · rw [if_pos hv]
      cases hg : _generate_personalized_message gen lead with
      | none => rfl
      | some message =>
        by_cases hm : message.isEmpty
        · simp [hm]
        · simp [hm, task_error_false]
    · simp [hv]

/-- C3 witness: a generation failure on a valid lead, hypothesis
`gen = error` discharged at a concrete exception. -/
theorem c3_adapter_failures_absorbed_witness :
    (process_lead (Except.error "generation service down" : Except String String)
        (Except.ok true : Except String Bool) (Except.ok () : Except String Unit)
        ⟨some "John", some "Acme", some "john@acme.com"⟩).message_generation = false ∧
      (process_lead (Except.error "generation service down" : Except String String)
        (Except.ok true : Except String Bool) (Except.ok () : Except String Unit)
        ⟨some "John", some "Acme", some "john@acme.com"⟩).email_sent = false ∧
      (process_lead (Except.error "generation service down" : Except String String)
        (Except.ok true : Except String Bool) (Except.ok () : Except String Unit)
        ⟨some "John", some "Acme", some "john@acme.com"⟩).task_created = false :=
  (c3_adapter_failures_absorbed (Except.error "generation service down")
    (Except.ok true) (Except.ok ())
    ⟨some "John", some "Acme", some "john@acme.com"⟩).1 "generation service down" rfl

/-- C4: the lead validator is a pure predicate returning true iff `Name`,
`Company` and `Email` are present and non-empty and the `Email` value contains
an `@`; when it returns false, `process_lead` returns the all-false
outcome. -/
theorem c4_validator_predicate (lead : Lead) :
    (_validate_lead_data lead = true ↔
      truthy lead.Name = true ∧ truthy lead.Company = true ∧ truthy lead.Email = true ∧
        (lead.Email.getD "").data.contains '@' = true) ∧
    ∀ {ε₁ ε₂ ε₃ : Type} (gen : Except ε₁ String) (sendEmail : Except ε₂ Bool)
        (createTask : Except ε₃ Unit), _validate_lead_data lead = false →
      process_lead gen sendEmail createTask lead = ⟨false, false, false, false⟩ := by
  refine ⟨validate_iff lead, ?_⟩
  intro ε₁ ε₂ ε₃ gen sendEmail createTask h
  exact (process_lead_eq_allFalse_iff gen sendEmail createTask lead).mpr h

/-- C4 witness: a lead with a missing `Company` field fails validation and
gets the all-false outcome. -/
theorem c4_validator_predicate_witness :
    process_lead (Except.ok "msg" : Except String String)
        (Except.ok true : Except String Bool) (Except.ok () : Except String Unit)
        ⟨some "John", none, some "john@acme.com"⟩ = ⟨false, false, false, false⟩ :=
  (c4_validator_predicate ⟨some "John", none, some "john@acme.com"⟩).2
    (Except.ok "msg") (Except.ok true) (Except.ok ()) (by decide)

/-- C10: on a lead that passes validation, a successful generation call that
returns the empty string is recorded as `message_generation = false`, the
email and task stages are not attempted (their outcomes are false for every
adapter behaviour), and the result is identical to that of a generation
failure. -/
theorem c10_empty_message_is_failure {ε₂ ε₃ : Type} (sendEmail : Except ε₂ Bool)
    (createTask : Except ε₃ Unit) (lead : Lead) (h : _validate_lead_data lead = true) :
    process_lead (Except.ok "" : Except String String) sendEmail createTask lead =
        ⟨true, false, false, false⟩ ∧
    ∀ {ε₁ : Type} (e : ε₁),
      process_lead (Except.ok "" : Except String String) sendEmail createTask lead =
        process_lead (Except.error e) sendEmail createTask lead := by
  obtain ⟨⟨n, hn⟩, ⟨c, hc⟩⟩ := validate_name_company lead h
  have hgen : _generate_personalized_message (Except.ok "" : Except String String) lead =
      some "" := by
    unfold _generate_personalized_message
    rw [hn, hc]
  have hempty : process_lead (Except.ok "" : Except String String) sendEmail createTask lead =
      ⟨true, false, false, false⟩ := by
    rw [process_lead_shape, if_pos h, hgen]
    rfl
  refine ⟨hempty, ?_⟩
  intro ε₁ e
  rw [hempty, process_lead_shape, if_pos h, gen_error_none]

/-- C10 witness: validation hypothesis discharged on a concrete valid lead. -/
theorem c10_empty_message_is_failure_witness :
    process_lead (Except.ok "" : Except String String)
        (Except.ok true : Except String Bool) (Except.ok () : Except String Unit)
        ⟨some "John", some "Acme", some "john@acme.com"⟩ = ⟨true, false, false, false⟩ :=
  (c10_empty_message_is_failure (Except.ok true) (Except.ok ())
    ⟨some "John", some "Acme", some "john@acme.com"⟩ (by decide)).1

open AnthropicClient in
/-- C5: with the key checks passing, a `RateLimited` signal is retried up to
`max_retries` additional times with a sleep of `2 ^ attempt * 1` seconds
before each retry; if every attempt is rate-limited the rate-limit failure is
raised after `max_retries + 1` calls; an `APIError` or any other exception is
raised immediately after the attempt on which it occurs with no retry and no
further sleep; the first successful attempt returns the generated text; and
for every service behaviour at most `max_retries + 1` calls are made (4 at
the default `max_retries = 3`). -/
theorem c5_rate_limit_retry_policy (service : Nat → GenAttempt) (lead : GenLead)
    (client_info : ClientInfo) (max_retries : Nat)
    (hn : lead.name.isSome = true) (hc : lead.company.isSome = true)
    (hci : client_info.name.isSome = true) :
    ((∀ i, i ≤ max_retries → service i = .rateLimitError) →
      generate_outreach_message service lead client_info max_retries =
        { calls := max_retries + 1,
          delays := (List.range max_retries).map (fun i => 2 ^ i * 1),
          outcome := .error .rateLimitError }) ∧
    (∀ k msg, k ≤ max_retries → (∀ i, i < k → service i = .rateLimitError) →
      service k = .ok msg →
      generate_outreach_message service lead client_info max_retries =
        { calls := k + 1, delays := (List.range k).map (fun i => 2 ^ i * 1),
          outcome := .ok msg }) ∧
    (∀ k, k ≤ max_retries → (∀ i, i < k → service i = .rateLimitError) →
      service k = .apiError →
      generate_outreach_message service lead client_info max_retries =
        { calls := k + 1, delays := (List.range k).map (fun i => 2 ^ i * 1),
          outcome := .error .apiError }) ∧
    (∀ k, k ≤ max_retries → (∀ i, i < k → service i = .rateLimitError) →
      service k = .unexpectedError →
      generate_outreach_message service lead client_info max_retries =
        { calls := k + 1, delays := (List.range k).map (fun i => 2 ^ i * 1),
          outcome := .error .unexpectedError }) ∧
    (generate_outreach_message service lead client_info max_retries).calls ≤
      max_retries + 1 := by
  rw [generate_outreach_message_eq_loop service lead client_info max_retries hn hc hci]
  have hrange : ∀ k : Nat, List.range' 0 k = List.range k := by
    intro k
    rw [List.range_eq_range']
  refine ⟨?_, ?_, ?_, ?_, ?_⟩
  · intro hall
    rw [genAttemptLoop_spec service max_retries max_retries 0 max_retries
      (by omega) (by omega) le_rfl (fun i h1 h2 => hall i (by omega))
      (Or.inr rfl)]
    rw [hall max_retries le_rfl]
    simp [attemptOutcome, hrange]
  · intro k msg hk hpre hs
    rw [genAttemptLoop_spec service max_retries k 0 k (by omega) (by omega) hk
      (fun i h1 h2 => hpre i h2) (Or.inl (by rw [hs]; intro hcon; cases hcon))]
    rw [hs]
    simp [attemptOutcome, hrange]
  · intro k hk hpre hs
    rw [genAttemptLoop_spec service max_retries k 0 k (by omega) (by omega) hk
      (fun i h1 h2 => hpre i h2) (Or.inl (by rw [hs]; intro hcon; cases hcon))]
    rw [hs]
    simp [attemptOutcome, hrange]
  · intro k hk hpre hs
    rw [genAttemptLoop_spec service max_retries k 0 k (by omega) (by omega) hk
      (fun i h1 h2 => hpre i h2) (Or.inl (by rw [hs]; intro hcon; cases hcon))]
    rw [hs]
    simp [attemptOutcome, hrange]
  · have := genAttemptLoop_calls_le service max_retries max_retries 0 (by omega)
    omega

open AnthropicClient in
/-- C5 witness: two rate-limited attempts then success at attempt 2 with
`max_retries = 3`: three calls, sleeps of 1 s then 2 s, the message
returned. -/
theorem c5_rate_limit_retry_policy_witness :
    generate_outreach_message
        (fun i => if i < 2 then .rateLimitError else .ok "Hello from SuperGrowth")
        ⟨some "John", some "Acme"⟩ ⟨some "SuperGrowth Agency"⟩ 3 =
      { calls := 3, delays := [1, 2], outcome := .ok "Hello from SuperGrowth" } := by
  have h := (c5_rate_limit_retry_policy
      (fun i => if i < 2 then .rateLimitError else .ok "Hello from SuperGrowth")
      ⟨some "John", some "Acme"⟩ ⟨some "SuperGrowth Agency"⟩ 3 rfl rfl rfl).2.1
      2 "Hello from SuperGrowth" (by omega)
      (fun i hi => by
        have : i = 0 ∨ i = 1 := by omega
        rcases this with h | h <;> subst h <;> rfl)
      rfl
  rw [h]
  rfl

open EmailSender in
/-- C6: for every ordered recipient list and every per-call transport
behaviour, bulk send applies the single send to each recipient in list order,
continues past individual failures, and reports `total = length`,
`successful + failed = total`, with one error description per failed
recipient in iteration order; in particular, with 3 recipients of which only
the second fails with a transport error, the report is
`{total: 3, successful: 2, failed: 1, errors: [one entry]}`. -/
theorem c6_bulk_send_report (transports : Nat → Except EmailFailure Unit)
    (email_list : List String) (subject body : String) (from_email : Option String) :
    ((send_bulk_emails transports email_list subject body from_email).total =
        email_list.length ∧
      (send_bulk_emails transports email_list subject body from_email).successful +
          (send_bulk_emails transports email_list subject body from_email).failed =
        (send_bulk_emails transports email_list subject body from_email).total ∧
      (send_bulk_emails transports email_list subject body from_email).errors =
        bulkErrorList transports subject body from_email email_list 0 ∧
      (send_bulk_emails transports email_list subject body from_email).failed =
        (bulkErrorList transports subject body from_email email_list 0).length) ∧
    send_bulk_emails
        (fun i => if i = 1 then Except.error (EmailFailure.smtpError "connection refused")
          else Except.ok ())
        ["a@example.com", "b@example.com", "c@example.com"]
        "Growth for Acme" "Hi there" none =
      { total := 3, successful := 2, failed := 1,
        errors := ["Error sending to b@example.com: connection refused"] } := by
  constructor
  · obtain ⟨h1, h2, h3, h4⟩ := bulkGo_spec transports subject body from_email email_list 0
      { total := email_list.length, successful := 0, failed := 0, errors := [] }
    unfold send_bulk_emails
    dsimp only at h1 h2 h3 h4
    refine ⟨h1, ?_, by simpa using h2, by simpa using h3⟩
    rw [h1]
    omega
  · rfl

open ClickUpClient in
/-- C7: with non-empty list identifier and name, a priority value is attached
to the outgoing request iff one was given and lies within `[1, 4]`; an
out-of-range priority is silently dropped (the call still succeeds) and the
request is identical to the one built with no priority at all. -/
theorem c7_priority_range (list_id name : String) (description due_date : Option String)
    (hl : list_id ≠ "") (hn : name ≠ "") :
    (∀ (p : Int) (req : TaskRequest),
      create_task list_id name description due_date (some p) = .ok req →
      (req.priority = some p ↔ 1 ≤ p ∧ p ≤ 4)) ∧
    (∀ p : Int, ¬(1 ≤ p ∧ p ≤ 4) →
      create_task list_id name description due_date (some p) =
        create_task list_id name description due_date none) ∧
    (∀ p : Int, ∃ req, create_task list_id name description due_date (some p) = .ok req) ∧
    (∃ req, create_task list_id name description due_date none = .ok req ∧
      req.priority = none) := by
  have hcond : (list_id = "" || name = "") = false := by
    simp [hl, hn]
  refine ⟨?_, ?_, ?_, ?_⟩
  · intro p req hreq
    unfold create_task at hreq
    rw [hcond] at hreq
    simp only [Bool.false_eq_true, if_false] at hreq
    cases hreq
    by_cases hp : 1 ≤ p ∧ p ≤ 4
    · rw [if_pos ⟨by omega, hp⟩]
      simp [hp]
    · rw [if_neg (by omega)]
      simp [hp]
  · intro p hp
    unfold create_task
    rw [hcond]
    simp only [Bool.false_eq_true, if_false]
    rw [if_neg (by omega)]
  · intro p
    unfold create_task
    rw [hcond]
    exact ⟨_, rfl⟩
  · unfold create_task
    rw [hcond]
    exact ⟨_, rfl, rfl⟩

open ClickUpClient in
/-- C7 witness: an out-of-range priority 7 is dropped, the request succeeds
and equals the priority-free request. -/
theorem c7_priority_range_witness :
    create_task "901234" "Follow up with John at Acme" (some "Hello") none (some 7) =
      create_task "901234" "Follow up with John at Acme" (some "Hello") none none ∧
    ∃ req, create_task "901234" "Follow up with John at Acme" (some "Hello") none (some 7) =
      .ok req :=
  ⟨(c7_priority_range "901234" "Follow up with John at Acme" (some "Hello") none
      (by decide) (by decide)).2.1 7 (by omega),
    (c7_priority_range "901234" "Follow up with John at Acme" (some "Hello") none
      (by decide) (by decide)).2.2.1 7⟩

open EmailSender in
/-- C8: `send_email` raises an invalid-input `ValueError` when recipient,
subject or body is empty or the recipient has no `@`, and it does so before
any transport connection is opened: the effect list is empty. -/
theorem c8_send_email_validates_before_connect (transport : Except EmailFailure Unit)
    (to_email subject body : String) (from_email : Option String)
    (h : to_email = "" ∨ subject = "" ∨ body = "" ∨
      to_email.data.contains '@' = false) :
    (send_email transport to_email subject body from_email).fst = [] ∧
    ∃ msg, (send_email transport to_email subject body from_email).snd =
      Except.error (EmailFailure.valueError msg) := by
  unfold send_email
  by_cases h1 : (to_email = "" || subject = "" || body = "") = true
  · rw [if_pos h1]
    exact ⟨rfl, _, rfl⟩
  · rw [if_neg h1]
    have hc : to_email.data.contains '@' = false := by
      rcases h with h | h | h | h
      · exact absurd (by simp [h]) h1
      · exact absurd (by simp [h]) h1
      · exact absurd (by simp [h]) h1
      · exact h
    rw [if_pos (by rw [hc]; rfl)]
    exact ⟨rfl, _, rfl⟩

open EmailSender in
/-- C8 witness: a recipient without `@` is rejected with a `ValueError` and
no connection effect. -/
theorem c8_send_email_validates_before_connect_witness :
    (send_email (Except.ok ()) "invalid" "Subject" "Body" none).fst = [] ∧
    ∃ msg, (send_email (Except.ok ()) "invalid" "Subject" "Body" none).snd =
      Except.error (EmailFailure.valueError msg) :=
  c8_send_email_validates_before_connect (Except.ok ()) "invalid" "Subject" "Body" none
    (Or.inr (Or.inr (Or.inr (by decide))))

open OutreachAgent in
/-- C9: each derived per-unit average equals the accumulated stage time
divided by `max(count, 1)`; the denominator is always positive (never a
division by zero), and with a zero count the average equals the accumulated
time itself. -/
theorem c9_average_division_guard (pm : PerformanceMetrics) (stats : CampaignStats) :
    ((get_performance_metrics pm stats).average_message_time =
        pm.message_generation_time / ((max stats.messages_generated 1 : ℕ) : ℚ) ∧
      (get_performance_metrics pm stats).average_email_time =
        pm.email_sending_time / ((max stats.emails_sent 1 : ℕ) : ℚ) ∧
      (get_performance_metrics pm stats).average_task_time =
        pm.task_creation_time / ((max stats.tasks_created 1 : ℕ) : ℚ)) ∧
    (0 < max stats.messages_generated 1 ∧ 0 < max stats.emails_sent 1 ∧
      0 < max stats.tasks_created 1) ∧
    (stats.messages_generated = 0 →
      (get_performance_metrics pm stats).average_message_time =
        pm.message_generation_time) ∧
    (stats.emails_sent = 0 →
      (get_performance_metrics pm stats).average_email_time = pm.email_sending_time) ∧
    (stats.tasks_created = 0 →
      (get_performance_metrics pm stats).average_task_time = pm.task_creation_time) := by
  refine ⟨⟨rfl, rfl, rfl⟩, ⟨?_, ?_, ?_⟩, ?_, ?_, ?_⟩
  · exact lt_of_lt_of_le one_pos (le_max_right _ _)
  · exact lt_of_lt_of_le one_pos (le_max_right _ _)
  · exact lt_of_lt_of_le one_pos (le_max_right _ _)
  · intro h
    simp [get_performance_metrics, h]
  · intro h
    simp [get_performance_metrics, h]
  · intro h
    simp [get_performance_metrics, h]

open OutreachAgent in
/-- C9 witness: with all counts zero, each average equals the accumulated
time; the zero-count hypotheses are discharged on a concrete stats record. -/
theorem c9_average_division_guard_witness :
    (get_performance_metrics ⟨10, 5, 3, 2⟩ ⟨0, 0, 0, 0, 0, 0⟩).average_message_time = 5 ∧
    (get_performance_metrics ⟨10, 5, 3, 2⟩ ⟨0, 0, 0, 0, 0, 0⟩).average_email_time = 3 ∧
    (get_performance_metrics ⟨10, 5, 3, 2⟩ ⟨0, 0, 0, 0, 0, 0⟩).average_task_time = 2 :=
  ⟨(c9_average_division_guard ⟨10, 5, 3, 2⟩ ⟨0, 0, 0, 0, 0, 0⟩).2.2.1 rfl,
    (c9_average_division_guard ⟨10, 5, 3, 2⟩ ⟨0, 0, 0, 0, 0, 0⟩).2.2.2.1 rfl,
    (c9_average_division_guard ⟨10, 5, 3, 2⟩ ⟨0, 0, 0, 0, 0, 0⟩).2.2.2.2 rfl⟩

end Claims
